import Mathlib

/-!
Verification of the `timeit` micro-benchmark harness (src/timeit.h).

The C++ header is shallow-embedded as follows.

* A clock (`ClockT`) is a deterministic sequence `clk : ℕ → ℚ`: the value
  returned by the i-th call to `ClockT::now()`, counted from 0, in the
  clock's native duration unit.  Every component threads the number of
  `now()` calls made so far.
* Durations are exact rationals.  The caller-chosen duration type `TimeT`
  is represented by two positive conversion factors:
  `castK` (the factor applied by `duration_cast<TimeT>` to a clock-native
  duration, i.e. clock period / TimeT period) and `secK` (the TimeT period
  measured in seconds, used by `duration<rep>{x}` and, scaled by 10^6, by
  `duration<rep, micro>{x}`).  The representation `rep` is modelled as an
  exact rational, matching the floating-point `double` rep of
  `default_duration` and of the deterministic test clock; double rounding
  is not modelled.
* A benchmark subject is a state transformer `func : S → S`; the loop
  body applies it once per iteration.  `int` counters are unbounded `ℤ`.
* `std::cout` output is accumulated in a `String`; `std::vector` indexing
  is modelled by `List.getElem?`, so an out-of-bounds access surfaces as
  `none`.
-/

set_option allowUnsafeReducibility true in
attribute [semireducible] Rat.mul Rat.add Rat.sub Rat.inv Rat.div Rat.ofScientific

namespace timeit

/-- Drop trailing `0` characters from a digit string. -/
def stripZeros (l : List Char) : List Char :=
  (l.reverse.dropWhile (fun c => c == '0')).reverse

/-- At least two exponent digits, as printed by C++ scientific notation. -/
def expDigits (k : ℕ) : List Char :=
  let s := (Nat.repr k).data
  if s.length < 2 then '0' :: s else s

/-- Scientific rendering `d.ddd e±EE` from an exponent and the stripped
significant digits. -/
def sciDigits (e : ℤ) : List Char → List Char
  | [] => []
  | d :: rest =>
      [d] ++ (if rest.isEmpty then [] else '.' :: rest)
        ++ ['e'] ++ [if e < 0 then '-' else '+'] ++ expDigits e.natAbs

/-- Fixed-point rendering from an exponent and the stripped significant
digits. -/
def fixedDigits (e : ℤ) (ds : List Char) : List Char :=
  if e < 0 then '0' :: '.' :: (List.replicate (e.natAbs - 1) '0' ++ ds)
  else if ds.length ≤ e.toNat + 1 then ds ++ List.replicate (e.toNat + 1 - ds.length) '0'
  else ds.take (e.toNat + 1) ++ '.' :: ds.drop (e.toNat + 1)

/-- Decide `p / q ≥ 10 ^ e` for naturals `p`, `q ≥ 1`. -/
def gePow10 (p q : ℕ) (e : ℤ) : Bool :=
  if 0 ≤ e then decide (q * 10 ^ e.toNat ≤ p) else decide (q ≤ p * 10 ^ (-e).toNat)

/-- The decimal exponent of `p / q`: the unique `e` with
`10 ^ e ≤ p / q < 10 ^ (e + 1)`. -/
def expOf (p q : ℕ) : ℤ :=
  let e1 : ℤ := ((Nat.repr p).length : ℤ) - ((Nat.repr q).length : ℤ)
  if gePow10 p q e1 then e1 else e1 - 1

/-- The six-digit mantissa of `p / q` at exponent `e`, rounded half to
even. -/
def sigDigits6 (p q : ℕ) (e : ℤ) : ℕ :=
  let ab := if e ≤ 5 then (p * 10 ^ (5 - e).toNat, q) else (p, q * 10 ^ (e - 5).toNat)
  let m0 := ab.1 / ab.2
  let r := ab.1 % ab.2
  if ab.2 < 2 * r then m0 + 1
  else if 2 * r = ab.2 then (if m0 % 2 = 1 then m0 + 1 else m0)
  else m0

/-- Render the positive rational `p / q` the way the default C++ ostream
state (`defaultfloat`, precision 6) renders a `double`. -/
def fmtPos (p q : ℕ) : List Char :=
  let e0 := expOf p q
  let m0 := sigDigits6 p q e0
  let m := if m0 = 1000000 then 100000 else m0
  let e := if m0 = 1000000 then e0 + 1 else e0
  let ds := stripZeros (Nat.repr m).data
  if 6 ≤ e ∨ e < -4 then sciDigits e ds else fixedDigits e ds

/-- Render a rational the way `std::cout` renders a `double` with default
formatting flags. -/
def fmtRat (x : ℚ) : String :=
  if x = 0 then "0"
  else if x < 0 then String.mk ('-' :: fmtPos x.num.natAbs x.den)
  else String.mk (fmtPos x.num.natAbs x.den)

/-- `timeit::timeit::operator()` (src/timeit.h:55-67): time an empty loop
of `num_loops` iterations, then a loop invoking the subject each
iteration, and return the difference of the two elapsed times cast to the
caller's duration type.  The clock is read four times; the result triple
is the returned duration, the subject state after `num_loops`
invocations, and the clock-call counter after the four reads. -/
def timeit_run {S : Type} (num_loops : ℤ) (castK : ℚ) (clk : ℕ → ℚ)
    (func : S → S) (s : S) (n0 : ℕ) : ℚ × S × ℕ :=
  let start := clk n0
  let loop_overhead := clk (n0 + 1) - start
  let start2 := clk (n0 + 2)
  let s1 := func^[num_loops.toNat] s
  let sum_time := clk (n0 + 3) - start2
  (castK * (sum_time - loop_overhead), s1, n0 + 4)

/-- The iteration loop of `timeit::repeat::operator()`: `k` remaining
iterations, accumulating results in order. -/
def repeat_go {S : Type} (num_loops : ℤ) (castK : ℚ) (clk : ℕ → ℚ)
    (func : S → S) : ℕ → S → ℕ → List ℚ × S × ℕ
  | 0, s, n => ([], s, n)
  | k + 1, s, n =>
      let r := timeit_run num_loops castK clk func s n
      let rest := repeat_go num_loops castK clk func k r.2.1 r.2.2
      (r.1 :: rest.1, rest.2)

/-- `timeit::repeat::operator()` (src/timeit.h:91-100): call the loop
timer `num_iterations` times with the same `num_loops`, returning the
list of results in invocation order. -/
def repeat_run {S : Type} (num_iterations num_loops : ℤ) (castK : ℚ) (clk : ℕ → ℚ)
    (func : S → S) (s : S) (n0 : ℕ) : List ℚ × S × ℕ :=
  repeat_go num_loops castK clk func num_iterations.toNat s n0

/-- The attempt loop of `timeit::calibrate_number_of_loops::operator()`:
`i` remaining attempts at the current `number`; on a failed attempt
`number` is multiplied by 10 by the for-loop increment before the next
test, and also once more after the final failed attempt. -/
def calibrate_go {S : Type} (verbose : Bool) (castK secK : ℚ) (clk : ℕ → ℚ)
    (func : S → S) : ℕ → ℤ → S → ℕ → String → ℤ × S × ℕ × String
  | 0, number, s, n, out => (number, s, n, out)
  | i + 1, number, s, n, out =>
      let r := timeit_run number castK clk func s n
      let x_seconds := secK * r.1
      let out1 := out ++ (if verbose then
        toString number ++ " loops -> " ++ fmtRat x_seconds ++ " secs\n" else "")
      if (0.2 : ℚ) ≤ x_seconds then (number, r.2.1, r.2.2, out1)
      else calibrate_go verbose castK secK clk func i (number * 10) r.2.1 r.2.2 out1

/-- `timeit::calibrate_number_of_loops::operator()` (src/timeit.h:117-129):
starting at `number = 10`, up to 10 attempts, each timing one batch and
interpreting the result in seconds against the 0.2 threshold. -/
def calibrate_number_of_loops {S : Type} (verbose : Bool) (castK secK : ℚ)
    (clk : ℕ → ℚ) (func : S → S) (s : S) (n0 : ℕ) : ℤ × S × ℕ × String :=
  calibrate_go verbose castK secK clk func 10 10 s n0 ""

/-- The `if (number == 0)` block at the top of
`timeit::timeit_out::operator()`: resolve the loop count, calibrating
when the configured `num_loops` is zero. -/
def timeit_out_cal {S : Type} (num_loops : ℤ) (verbose : Bool) (castK secK : ℚ)
    (clk : ℕ → ℚ) (func : S → S) (s : S) (n0 : ℕ) : ℤ × S × ℕ × String :=
  if num_loops = 0 then calibrate_number_of_loops verbose castK secK clk func s n0
  else (num_loops, s, n0, "")

/-- The sample set gathered by `timeit::timeit_out::operator()`: the
repeater run at the resolved loop count. -/
def timeit_out_samples {S : Type} (num_iterations num_loops : ℤ) (verbose : Bool)
    (castK secK : ℚ) (clk : ℕ → ℚ) (func : S → S) (s : S) (n0 : ℕ) : List ℚ × S × ℕ :=
  let c := timeit_out_cal num_loops verbose castK secK clk func s n0
  repeat_run num_iterations c.1 castK clk func c.2.1 c.2.2.1

/-- `timeit::timeit_out::operator()` (src/timeit.h:153-174): calibrate if
needed, repeat, sort ascending, take `results[0] / number`, print the
summary line, return the per-loop best.  The result is `none` exactly
when the `results[0]` access is out of bounds. -/
def timeit_out_run {S : Type} (num_iterations num_loops : ℤ) (verbose : Bool)
    (castK secK : ℚ) (clk : ℕ → ℚ) (func : S → S) (s : S) (n0 : ℕ) :
    Option (ℚ × S × ℕ × String) :=
  let c := timeit_out_cal num_loops verbose castK secK clk func s n0
  let rr := timeit_out_samples num_iterations num_loops verbose castK secK clk func s n0
  let results := List.insertionSort (· ≤ ·) rr.1
  let raw_out := if verbose then
    "raw times:" ++ String.join (results.map (fun r => " " ++ fmtRat (r * secK * 1000000))) ++ "\n"
  else ""
  match results[0]? with
  | none => none
  | some r0 =>
      let best := r0 / (c.1 : ℚ)
      some (best, rr.2.1, rr.2.2,
        c.2.2.2 ++ raw_out ++ toString c.1 ++ " loops, best of " ++ toString num_iterations
          ++ ": " ++ fmtRat (best * secK * 1000000) ++ " usec per loop\n")

/-- The `if (number == 0)` block at the top of
`timeit::compare::operator()`: calibrate each subject in turn and take
the larger loop count, or pass the configured one through. -/
def compare_cal {S : Type} (num_loops : ℤ) (verbose : Bool) (castK secK : ℚ)
    (clk : ℕ → ℚ) (func1 func2 : S → S) (s : S) (n0 : ℕ) : ℤ × S × ℕ × String :=
  if num_loops = 0 then
    let r1 := calibrate_number_of_loops verbose castK secK clk func1 s n0
    let r2 := calibrate_number_of_loops verbose castK secK clk func2 r1.2.1 r1.2.2.1
    (max r1.1 r2.1, r2.2.1, r2.2.2.1, r1.2.2.2 ++ r2.2.2.2)
  else (num_loops, s, n0, "")

/-- The first sample set gathered by `timeit::compare::operator()`. -/
def compare_rr1 {S : Type} (num_iterations num_loops : ℤ) (verbose : Bool)
    (castK secK : ℚ) (clk : ℕ → ℚ) (func1 func2 : S → S) (s : S) (n0 : ℕ) :
    List ℚ × S × ℕ :=
  let c := compare_cal num_loops verbose castK secK clk func1 func2 s n0
  repeat_run num_iterations c.1 castK clk func1 c.2.1 c.2.2.1

/-- The second sample set gathered by `timeit::compare::operator()`. -/
def compare_rr2 {S : Type} (num_iterations num_loops : ℤ) (verbose : Bool)
    (castK secK : ℚ) (clk : ℕ → ℚ) (func1 func2 : S → S) (s : S) (n0 : ℕ) :
    List ℚ × S × ℕ :=
  let c := compare_cal num_loops verbose castK secK clk func1 func2 s n0
  let rr1 := compare_rr1 num_iterations num_loops verbose castK secK clk func1 func2 s n0
  repeat_run num_iterations c.1 castK clk func2 rr1.2.1 rr1.2.2

/-- `timeit::compare::operator()` (src/timeit.h:200-249): shared loop
count, one repeater run per subject, each sample set sorted ascending;
`best = results[0]`, `median = results[num_iterations / 2]` (C++ `int`
division truncates, hence `Int.tdiv`); returns
`(best1 / best2, median1 / median2, number, final state, clock counter,
output)`, or `none` exactly when one of the four accesses is out of
bounds. -/
def compare_run {S : Type} (num_iterations num_loops : ℤ) (verbose : Bool)
    (castK secK : ℚ) (clk : ℕ → ℚ) (func1 func2 : S → S) (s : S) (n0 : ℕ) :
    Option (ℚ × ℚ × ℤ × S × ℕ × String) :=
  let c := compare_cal num_loops verbose castK secK clk func1 func2 s n0
  let rr1 := compare_rr1 num_iterations num_loops verbose castK secK clk func1 func2 s n0
  let rr2 := compare_rr2 num_iterations num_loops verbose castK secK clk func1 func2 s n0
  let results1 := List.insertionSort (· ≤ ·) rr1.1
  let results2 := List.insertionSort (· ≤ ·) rr2.1
  let out1 := c.2.2.2 ++ (if verbose then
    "raw times 1:" ++ String.join (results1.map (fun r => " " ++ fmtRat (r * secK * 1000000))) ++ "\n"
  else "")
  let out2 := out1 ++ (if verbose then
    "raw times 2:" ++ String.join (results2.map (fun r => " " ++ fmtRat (r * secK * 1000000))) ++ "\n"
  else "")
  let medianIdx := (num_iterations.tdiv 2).toNat
  match results1[0]?, results1[medianIdx]?, results2[0]?, results2[medianIdx]? with
  | some best1, some median1, some best2, some median2 =>
      let outR := out2 ++ (if verbose then
        "ratio:" ++ String.join (List.zipWith (fun a b => " " ++ fmtRat (a / b)) results1 results2) ++ "\n"
      else "")
      let ratio := best1 / best2
      let ratioX := median1 / median2
      some (ratio, ratioX, c.1, rr2.2.1, rr2.2.2,
        outR ++ toString c.1 ++ " loops, best of " ++ toString num_iterations
          ++ ": " ++ fmtRat ratio ++ ", median: " ++ fmtRat ratioX ++ " per loop\n")
  | _, _, _, _ => none

/-- The deterministic test clock of src/timeit_test.cpp
(`MockExponentialClock` after `reset`): successive `now()` calls return
1, 2, 4, 8, ... seconds, i.e. the i-th call returns `2 ^ i`. -/
def mockClock (n : ℕ) : ℚ := 2 ^ n

/-- A clock with a jitter pattern under which the subject loop appears
faster than the empty loop. -/
def jitterClock (n : ℕ) : ℚ := [0, 10, 20, 21].getD n 21

/-- The values produced by the repeater loop: one loop-timer result per
iteration, the i-th at clock-call offset `4 * i` and with the subject
state advanced by `num_loops` invocations per earlier iteration. -/
lemma repeat_go_vals {S : Type} (num_loops : ℤ) (castK : ℚ) (clk : ℕ → ℚ) (func : S → S) :
    ∀ (k : ℕ) (s : S) (n0 : ℕ),
      (repeat_go num_loops castK clk func k s n0).1 =
        (List.range k).map (fun i =>
          (timeit_run num_loops castK clk func (func^[num_loops.toNat * i] s) (n0 + 4 * i)).1) := by
  intro k
  induction k with
  | zero => intro s n0; simp [repeat_go]
  | succ k ih =>
      intro s n0
      simp only [repeat_go, List.range_succ_eq_map, List.map_cons, List.map_map]
      have h2 : (timeit_run num_loops castK clk func s n0).2.1 = func^[num_loops.toNat] s := rfl
      have h3 : (timeit_run num_loops castK clk func s n0).2.2 = n0 + 4 := rfl
      rw [h2, h3, ih]
      refine congrArg₂ _ ?_ ?_
      · simp
      · refine List.map_congr_left (fun i _ => ?_)
        simp only [Function.comp_apply, Nat.succ_eq_add_one]
        rw [← Function.iterate_add_apply]
        have e1 : num_loops.toNat * i + num_loops.toNat = num_loops.toNat * (i + 1) := by ring
        have e2 : n0 + 4 + 4 * i = n0 + 4 * (i + 1) := by ring
        rw [e1, e2]

/-- The repeater produces exactly `num_iterations.toNat` samples. -/
lemma repeat_run_length {S : Type} (num_iterations num_loops : ℤ) (castK : ℚ)
    (clk : ℕ → ℚ) (func : S → S) (s : S) (n0 : ℕ) :
    (repeat_run num_iterations num_loops castK clk func s n0).1.length = num_iterations.toNat := by
  rw [repeat_run, repeat_go_vals]
  simp

/-- The head of the ascending insertion sort of a list of rationals is
the minimum of the list. -/
lemma head?_insertionSort_min? (l : List ℚ) :
    (List.insertionSort (fun a b => a ≤ b) l).head? = l.min? := by
  rcases h : List.insertionSort (fun a b => a ≤ b) l with _ | ⟨a, t⟩
  · have hp := List.perm_insertionSort (fun a b => a ≤ b) l
    rw [h] at hp
    rw [List.perm_nil.mp hp.symm]
    rfl
  · have hp := List.perm_insertionSort (fun a b => a ≤ b) l
    rw [h] at hp
    have hs := List.sorted_insertionSort (fun a b => a ≤ b) l
    rw [h] at hs
    have hmem : a ∈ l := hp.mem_iff.mp (List.mem_cons_self a t)
    have hle : ∀ b ∈ l, a ≤ b := by
      intro b hb
      rcases List.mem_cons.mp (hp.mem_iff.mpr hb) with rfl | hbt
      · exact le_refl b
      · exact (List.sorted_cons.mp hs).1 b hbt
    haveI : Std.Antisymm (fun x1 x2 : ℚ => x1 ≤ x2) := ⟨fun h1 h2 => le_antisymm h1 h2⟩
    have := (List.min?_eq_some_iff (fun x : ℚ => le_refl x)
      (fun x y => min_choice x y) (fun x y z => le_min_iff)).mpr ⟨hmem, hle⟩
    rw [this]
    rfl

/-- C++ `int` division truncates; for a positive repeat count the median
index `R / 2` is a valid index into a sample set of length `R`. -/
lemma tdiv2_toNat_lt (R : ℤ) (hR : 1 ≤ R) : (R.tdiv 2).toNat < R.toNat := by
  have h1 : R.tdiv 2 = R / 2 := Int.tdiv_eq_ediv (by omega) (by omega)
  omega

lemma str_empty_append (s : String) : "" ++ s = s := by
  cases s
  rfl

/-- For a positive repeat count the Reporter's `results[0]` access is in
bounds, and the returned value is the sorted head divided by the
resolved loop count, with the summary line appended to the output. -/
lemma timeit_out_run_eq {S : Type} (num_iterations num_loops : ℤ) (verbose : Bool)
    (castK secK : ℚ) (clk : ℕ → ℚ) (func : S → S) (s : S) (n0 : ℕ)
    (hR : 1 ≤ num_iterations) :
    ∃ r0,
      (List.insertionSort (fun a b => a ≤ b)
        (timeit_out_samples num_iterations num_loops verbose castK secK clk func s n0).1)[0]? = some r0 ∧
      timeit_out_run num_iterations num_loops verbose castK secK clk func s n0 =
        some (r0 / ((timeit_out_cal num_loops verbose castK secK clk func s n0).1 : ℚ),
          (timeit_out_samples num_iterations num_loops verbose castK secK clk func s n0).2.1,
          (timeit_out_samples num_iterations num_loops verbose castK secK clk func s n0).2.2,
          (timeit_out_cal num_loops verbose castK secK clk func s n0).2.2.2
            ++ (if verbose then "raw times:" ++ String.join ((List.insertionSort (fun a b => a ≤ b)
                  (timeit_out_samples num_iterations num_loops verbose castK secK clk func s n0).1).map
                  (fun r => " " ++ fmtRat (r * secK * 1000000))) ++ "\n" else "")
            ++ toString (timeit_out_cal num_loops verbose castK secK clk func s n0).1
            ++ " loops, best of " ++ toString num_iterations ++ ": "
            ++ fmtRat (r0 / ((timeit_out_cal num_loops verbose castK secK clk func s n0).1 : ℚ) * secK * 1000000)
            ++ " usec per loop\n") := by
  have hlen : (timeit_out_samples num_iterations num_loops verbose castK secK clk func s n0).1.length
      = num_iterations.toNat := by
    rw [timeit_out_samples]
    exact repeat_run_length _ _ _ _ _ _ _
  have hpos : 0 < (List.insertionSort (fun a b => a ≤ b)
      (timeit_out_samples num_iterations num_loops verbose castK secK clk func s n0).1).length := by
    rw [List.length_insertionSort, hlen]
    omega
  refine ⟨_, List.getElem?_eq_getElem hpos, ?_⟩
  rw [timeit_out_run, List.getElem?_eq_getElem hpos]

/-- For a positive repeat count all four of the Comparator's sample
accesses are in bounds, and the returned triple is
`(best1 / best2, median1 / median2, shared loop count)`. -/
lemma compare_run_eq {S : Type} (num_iterations num_loops : ℤ) (verbose : Bool)
    (castK secK : ℚ) (clk : ℕ → ℚ) (func1 func2 : S → S) (s : S) (n0 : ℕ)
    (hR : 1 ≤ num_iterations) :
    ∃ best1 median1 best2 median2,
      (List.insertionSort (fun a b => a ≤ b)
        (compare_rr1 num_iterations num_loops verbose castK secK clk func1 func2 s n0).1)[0]? = some best1 ∧
      (List.insertionSort (fun a b => a ≤ b)
        (compare_rr1 num_iterations num_loops verbose castK secK clk func1 func2 s n0).1)[(num_iterations.tdiv 2).toNat]? = some median1 ∧
      (List.insertionSort (fun a b => a ≤ b)
        (compare_rr2 num_iterations num_loops verbose castK secK clk func1 func2 s n0).1)[0]? = some best2 ∧
      (List.insertionSort (fun a b => a ≤ b)
        (compare_rr2 num_iterations num_loops verbose castK secK clk func1 func2 s n0).1)[(num_iterations.tdiv 2).toNat]? = some median2 ∧
      ∃ out, compare_run num_iterations num_loops verbose castK secK clk func1 func2 s n0 =
        some (best1 / best2, median1 / median2,
          (compare_cal num_loops verbose castK secK clk func1 func2 s n0).1,
          (compare_rr2 num_iterations num_loops verbose castK secK clk func1 func2 s n0).2.1,
          (compare_rr2 num_iterations num_loops verbose castK secK clk func1 func2 s n0).2.2, out) := by
  have hlen1 : (compare_rr1 num_iterations num_loops verbose castK secK clk func1 func2 s n0).1.length
      = num_iterations.toNat := by
    rw [compare_rr1]
    exact repeat_run_length _ _ _ _ _ _ _
  have hlen2 : (compare_rr2 num_iterations num_loops verbose castK secK clk func1 func2 s n0).1.length
      = num_iterations.toNat := by
    rw [compare_rr2]
    exact repeat_run_length _ _ _ _ _ _ _
  have hb1 : 0 < (List.insertionSort (fun a b => a ≤ b)
      (compare_rr1 num_iterations num_loops verbose castK secK clk func1 func2 s n0).1).length := by
    rw [List.length_insertionSort, hlen1]
    omega
  have hm1 : (num_iterations.tdiv 2).toNat < (List.insertionSort (fun a b => a ≤ b)
      (compare_rr1 num_iterations num_loops verbose castK secK clk func1 func2 s n0).1).length := by
    rw [List.length_insertionSort, hlen1]
    exact tdiv2_toNat_lt _ hR
  have hb2 : 0 < (List.insertionSort (fun a b => a ≤ b)
      (compare_rr2 num_iterations num_loops verbose castK secK clk func1 func2 s n0).1).length := by
    rw [List.length_insertionSort, hlen2]
    omega
  have hm2 : (num_iterations.tdiv 2).toNat < (List.insertionSort (fun a b => a ≤ b)
      (compare_rr2 num_iterations num_loops verbose castK secK clk func1 func2 s n0).1).length := by
    rw [List.length_insertionSort, hlen2]
    exact tdiv2_toNat_lt _ hR
  obtain ⟨best1, h1⟩ : ∃ x, (List.insertionSort (fun a b => a ≤ b)
      (compare_rr1 num_iterations num_loops verbose castK secK clk func1 func2 s n0).1)[0]? = some x :=
    ⟨_, List.getElem?_eq_getElem hb1⟩
  obtain ⟨median1, h2⟩ : ∃ x, (List.insertionSort (fun a b => a ≤ b)
      (compare_rr1 num_iterations num_loops verbose castK secK clk func1 func2 s n0).1)[(num_iterations.tdiv 2).toNat]? = some x :=
    ⟨_, List.getElem?_eq_getElem hm1⟩
  obtain ⟨best2, h3⟩ : ∃ x, (List.insertionSort (fun a b => a ≤ b)
      (compare_rr2 num_iterations num_loops verbose castK secK clk func1 func2 s n0).1)[0]? = some x :=
    ⟨_, List.getElem?_eq_getElem hb2⟩
  obtain ⟨median2, h4⟩ : ∃ x, (List.insertionSort (fun a b => a ≤ b)
      (compare_rr2 num_iterations num_loops verbose castK secK clk func1 func2 s n0).1)[(num_iterations.tdiv 2).toNat]? = some x :=
    ⟨_, List.getElem?_eq_getElem hm2⟩
  refine ⟨best1, median1, best2, median2, h1, h2, h3, h4, ?_⟩
  simp only [compare_run]
  rw [h1, h2, h3, h4]
  dsimp only
  exact ⟨_, rfl⟩

/-- Cumulative number of subject invocations made by the calibration
attempts before 0-based attempt `k`: attempt `j` runs `10 ^ (j + 1)`
loops. -/
def calCumLoops : ℕ → ℕ
  | 0 => 0
  | k + 1 => calCumLoops k + 10 ^ (k + 1)

/-- The value measured by 0-based calibration attempt `k`, interpreted in
seconds: one loop-timer measurement at `N = 10 ^ (k + 1)`, taken at the
clock position and subject state the earlier attempts left behind. -/
def calAttemptVal {S : Type} (castK secK : ℚ) (clk : ℕ → ℚ) (func : S → S)
    (s : S) (n0 k : ℕ) : ℚ :=
  secK * (timeit_run ((10 : ℤ) ^ (k + 1)) castK clk func (func^[calCumLoops k] s) (n0 + 4 * k)).1

/-- The calibration search as the amended claim describes it: try
`N = 10, 100, ..., 10 ^ 10` in order; return the first `N` whose
measurement is at least 0.2 seconds, and `10 ^ 11` — ten times the last
attempted count — when all ten attempts stay below the threshold. -/
def calibrate_spec {S : Type} (castK secK : ℚ) (clk : ℕ → ℚ) (func : S → S)
    (s : S) (n0 : ℕ) : ℤ :=
  match (List.range 10).find?
      (fun k => decide ((0.2 : ℚ) ≤ calAttemptVal castK secK clk func s n0 k)) with
  | some k => (10 : ℤ) ^ (k + 1)
  | none => (10 : ℤ) ^ 11

lemma calibrate_go_eq_spec {S : Type} (verbose : Bool) (castK secK : ℚ) (clk : ℕ → ℚ)
    (func : S → S) (s : S) (n0 : ℕ) :
    ∀ (i j : ℕ), i + j = 10 → ∀ out : String,
      (calibrate_go verbose castK secK clk func i ((10 : ℤ) ^ (j + 1))
          (func^[calCumLoops j] s) (n0 + 4 * j) out).1 =
        match (List.range i).find?
            (fun k => decide ((0.2 : ℚ) ≤ calAttemptVal castK secK clk func s n0 (j + k))) with
        | some k => (10 : ℤ) ^ (j + k + 1)
        | none => (10 : ℤ) ^ 11 := by
  intro i
  induction i with
  | zero =>
      intro j hij out
      obtain rfl : j = 10 := by omega
      simp only [List.range_zero, List.find?_nil, calibrate_go]
  | succ i ih =>
      intro j hij out
      have hval : secK * (timeit_run ((10 : ℤ) ^ (j + 1)) castK clk func
          (func^[calCumLoops j] s) (n0 + 4 * j)).1 = calAttemptVal castK secK clk func s n0 j := rfl
      simp only [calibrate_go, hval]
      by_cases hc : (0.2 : ℚ) ≤ calAttemptVal castK secK clk func s n0 j
      · rw [if_pos hc, List.range_succ_eq_map,
          List.find?_cons_of_pos _ (by simp only [Nat.add_zero]; exact decide_eq_true hc)]
      · rw [if_neg hc, List.range_succ_eq_map,
          List.find?_cons_of_neg _ (by simp only [Nat.add_zero]; simpa using hc),
          List.find?_map]
        have hstate : (timeit_run ((10 : ℤ) ^ (j + 1)) castK clk func
            (func^[calCumLoops j] s) (n0 + 4 * j)).2.1 = func^[calCumLoops (j + 1)] s := by
          show func^[((10 : ℤ) ^ (j + 1)).toNat] (func^[calCumLoops j] s) = _
          rw [← Function.iterate_add_apply]
          congr 1
          have h10 : ((10 : ℤ) ^ (j + 1)).toNat = 10 ^ (j + 1) := by
            rw [show ((10 : ℤ) ^ (j + 1)) = ((10 ^ (j + 1) : ℕ) : ℤ) by push_cast; ring]
            exact Int.toNat_natCast _
          rw [h10, calCumLoops]
          omega
        have hcnt : (timeit_run ((10 : ℤ) ^ (j + 1)) castK clk func
            (func^[calCumLoops j] s) (n0 + 4 * j)).2.2 = n0 + 4 * (j + 1) := by
          show n0 + 4 * j + 4 = n0 + 4 * (j + 1)
          ring
        have hnum : (10 : ℤ) ^ (j + 1) * 10 = (10 : ℤ) ^ (j + 1 + 1) := (pow_succ 10 (j + 1)).symm
        rw [hstate, hcnt, hnum, ih (j + 1) (by omega)]
        have hpred : ((fun k => decide ((0.2 : ℚ) ≤ calAttemptVal castK secK clk func s n0 (j + k)))
            ∘ Nat.succ) =
            (fun k => decide ((0.2 : ℚ) ≤ calAttemptVal castK secK clk func s n0 (j + 1 + k))) := by
          funext k
          simp only [Function.comp_apply]
          rw [show j + Nat.succ k = j + 1 + k by omega]
        rw [hpred]
        rcases hfind : (List.range i).find?
            (fun k => decide ((0.2 : ℚ) ≤ calAttemptVal castK secK clk func s n0 (j + 1 + k))) with
          _ | k
        · rfl
        · show (10 : ℤ) ^ (j + 1 + k + 1) = (10 : ℤ) ^ (j + (k + 1) + 1)
          congr 1
          omega

/-- Claim C3 (amended): the calibrator starts at `N = 10` and, for up to
10 attempts, runs one loop-timer measurement at the current `N`; if the
measured value interpreted in seconds is at least 0.2 it stops and
returns the current `N`, otherwise it multiplies `N` by 10 and retries;
if the threshold is never reached within the 10 attempts it returns ten
times the last attempted loop count, `N = 10 ^ 11`. -/
theorem calibrate_matches_spec {S : Type} (verbose : Bool) (castK secK : ℚ)
    (clk : ℕ → ℚ) (func : S → S) (s : S) (n0 : ℕ) :
    (calibrate_number_of_loops verbose castK secK clk func s n0).1 =
      calibrate_spec castK secK clk func s n0 := by
  have h := calibrate_go_eq_spec verbose castK secK clk func s n0 10 0 rfl ""
  simp only [calCumLoops, Function.iterate_zero, id_eq, Nat.mul_zero, Nat.add_zero,
    Nat.zero_add, pow_one] at h
  rw [calibrate_number_of_loops, h, calibrate_spec]

/-- Claim C3, counterexample: under a clock that never advances every
calibration attempt measures 0 seconds, the threshold is never reached,
and the calibrator returns `10 ^ 11`, not the last attempted loop count
`10 ^ 10`. -/
theorem calibrate_fallback_counterexample :
    (calibrate_number_of_loops false 1 1 (fun _ => (0 : ℚ)) (fun x : ℕ => x) 0 0).1 = 10 ^ 11 ∧
      (calibrate_number_of_loops false 1 1 (fun _ => (0 : ℚ)) (fun x : ℕ => x) 0 0).1 ≠ 10 ^ 10 := by
  constructor
  · decide
  · decide

/-- Claim C1: for every loop count `N ≥ 1` and every subject, the loop
timer returns the subject-loop elapsed time minus the empty-loop elapsed
time, cast to the caller's duration type; the batch total is not divided
by `N`. -/
theorem timeit_overhead_corrected_batch_total {S : Type} (num_loops : ℤ) (castK : ℚ)
    (clk : ℕ → ℚ) (func : S → S) (s : S) (n0 : ℕ) (hN : 1 ≤ num_loops) :
    (timeit_run num_loops castK clk func s n0).1 =
      castK * ((clk (n0 + 3) - clk (n0 + 2)) - (clk (n0 + 1) - clk n0)) := rfl

/-- Witness for C1 at the deterministic test clock:
`(8 - 4) - (2 - 1) = 3`. -/
theorem timeit_overhead_corrected_batch_total_witness :
    (1 : ℤ) ≤ 1 ∧
      (timeit_run 1 1 mockClock (fun x : ℕ => x) 0 0).1 =
        1 * ((mockClock 3 - mockClock 2) - (mockClock 1 - mockClock 0)) :=
  ⟨by decide, timeit_overhead_corrected_batch_total 1 1 mockClock (fun x : ℕ => x) 0 0 (by decide)⟩

/-- Claim C7: whenever the subject-loop elapsed time is smaller than the
empty-loop elapsed time, the loop timer's result is a negative duration,
passed through unmodified rather than clamped to zero. -/
theorem timeit_negative_passthrough {S : Type} (num_loops : ℤ) (castK : ℚ)
    (clk : ℕ → ℚ) (func : S → S) (s : S) (n0 : ℕ) (hcast : 0 < castK)
    (hlt : clk (n0 + 3) - clk (n0 + 2) < clk (n0 + 1) - clk n0) :
    (timeit_run num_loops castK clk func s n0).1 < 0 := by
  have h : (timeit_run num_loops castK clk func s n0).1 =
      castK * ((clk (n0 + 3) - clk (n0 + 2)) - (clk (n0 + 1) - clk n0)) := rfl
  rw [h]
  exact mul_neg_of_pos_of_neg hcast (sub_neg.mpr hlt)

/-- Witness for C7: under `jitterClock` the empty loop takes 10 units and
the subject loop 1 unit, so the result is negative. -/
theorem timeit_negative_passthrough_witness :
    (0 : ℚ) < 1 ∧ jitterClock 3 - jitterClock 2 < jitterClock 1 - jitterClock 0 ∧
      (timeit_run 1 1 jitterClock (fun x : ℕ => x) 0 0).1 < 0 :=
  ⟨by decide, by decide,
    timeit_negative_passthrough 1 1 jitterClock (fun x : ℕ => x) 0 0 (by decide) (by decide)⟩

/-- Claim C9: for every repeat count `R ≥ 0` the repeater invokes the
loop timer exactly `R` times, each time with the same loop count, and
returns the results in invocation order with no aggregation; under the
deterministic test clock, two batches at `N = 1` yield the samples
`[3, 48]`. -/
theorem repeat_invokes_loop_timer_in_order {S : Type} (num_iterations num_loops : ℤ)
    (castK : ℚ) (clk : ℕ → ℚ) (func : S → S) (s : S) (n0 : ℕ) (hR : 0 ≤ num_iterations) :
    (repeat_run num_iterations num_loops castK clk func s n0).1 =
        (List.range num_iterations.toNat).map (fun i =>
          (timeit_run num_loops castK clk func (func^[num_loops.toNat * i] s) (n0 + 4 * i)).1) ∧
      (repeat_run num_iterations num_loops castK clk func s n0).1.length = num_iterations.toNat ∧
      (repeat_run 2 1 1 mockClock (fun x : ℕ => x) 0 0).1 = [3, 48] :=
  ⟨repeat_go_vals num_loops castK clk func num_iterations.toNat s n0,
    repeat_run_length num_iterations num_loops castK clk func s n0, by decide⟩

/-- Witness for C9 at `R = 2`, `N = 1` under the deterministic test
clock. -/
theorem repeat_invokes_loop_timer_in_order_witness :
    (0 : ℤ) ≤ 2 ∧
      ((repeat_run 2 1 1 mockClock (fun x : ℕ => x) 0 0).1 =
          (List.range (2 : ℤ).toNat).map (fun i =>
            (timeit_run 1 1 mockClock (fun x : ℕ => x) ((fun x : ℕ => x)^[(1 : ℤ).toNat * i] 0) (0 + 4 * i)).1) ∧
        (repeat_run 2 1 1 mockClock (fun x : ℕ => x) 0 0).1.length = (2 : ℤ).toNat ∧
        (repeat_run 2 1 1 mockClock (fun x : ℕ => x) 0 0).1 = [3, 48]) :=
  ⟨by decide, repeat_invokes_loop_timer_in_order 2 1 1 mockClock (fun x : ℕ => x) 0 0 (by decide)⟩

/-- Claim C2: for every sample set produced by the repeater with
`N ≥ 1` and `R ≥ 1`, the Reporter sorts the samples ascending and
returns the minimum batch total divided by the loop count. -/
theorem timeit_out_best_is_min_div_loops {S : Type} (num_iterations num_loops : ℤ)
    (verbose : Bool) (castK secK : ℚ) (clk : ℕ → ℚ) (func : S → S) (s : S) (n0 : ℕ)
    (hR : 1 ≤ num_iterations) (hN : 1 ≤ num_loops) :
    ∃ m s1 n1 out,
      (timeit_out_samples num_iterations num_loops verbose castK secK clk func s n0).1.min? = some m ∧
      List.Sorted (fun a b => a ≤ b) (List.insertionSort (fun a b => a ≤ b)
        (timeit_out_samples num_iterations num_loops verbose castK secK clk func s n0).1) ∧
      (List.insertionSort (fun a b => a ≤ b)
        (timeit_out_samples num_iterations num_loops verbose castK secK clk func s n0).1).Perm
        (timeit_out_samples num_iterations num_loops verbose castK secK clk func s n0).1 ∧
      timeit_out_run num_iterations num_loops verbose castK secK clk func s n0 =
        some (m / (num_loops : ℚ), s1, n1, out) := by
  obtain ⟨r0, h0, heq⟩ :=
    timeit_out_run_eq num_iterations num_loops verbose castK secK clk func s n0 hR
  have hcal : (timeit_out_cal num_loops verbose castK secK clk func s n0).1 = num_loops := by
    rw [timeit_out_cal, if_neg (by omega : ¬num_loops = 0)]
  have hmin : (timeit_out_samples num_iterations num_loops verbose castK secK clk func s n0).1.min?
      = some r0 := by
    rw [← head?_insertionSort_min?, List.head?_eq_getElem?]
    exact h0
  rw [hcal] at heq
  exact ⟨r0, _, _, _, hmin, List.sorted_insertionSort _ _, List.perm_insertionSort _ _, heq⟩

/-- Witness for C2 at `R = 3`, `N = 2` under the deterministic test
clock. -/
theorem timeit_out_best_is_min_div_loops_witness :
    ∃ m s1 n1 out,
      (timeit_out_samples 3 2 false 1 1 mockClock (fun x : ℕ => x) 0 0).1.min? = some m ∧
      List.Sorted (fun a b => a ≤ b) (List.insertionSort (fun a b => a ≤ b)
        (timeit_out_samples 3 2 false 1 1 mockClock (fun x : ℕ => x) 0 0).1) ∧
      (List.insertionSort (fun a b => a ≤ b)
        (timeit_out_samples 3 2 false 1 1 mockClock (fun x : ℕ => x) 0 0).1).Perm
        (timeit_out_samples 3 2 false 1 1 mockClock (fun x : ℕ => x) 0 0).1 ∧
      timeit_out_run 3 2 false 1 1 mockClock (fun x : ℕ => x) 0 0 =
        some (m / ((2 : ℤ) : ℚ), s1, n1, out) :=
  timeit_out_best_is_min_div_loops 3 2 false 1 1 mockClock (fun x : ℕ => x) 0 0
    (by decide) (by decide)

/-- Claim C8: the Reporter's summary line has exactly the form
`<loops> loops, best of <repeats>: <value> usec per loop` followed by a
newline, with the value converted to microseconds; with `R = 3`, `N = 2`,
a no-op subject and the deterministic test clock it emits exactly
`2 loops, best of 3: 1.5e+06 usec per loop`. -/
theorem timeit_out_summary_line_format :
    (∀ (S : Type) (num_iterations num_loops : ℤ) (castK secK : ℚ) (clk : ℕ → ℚ)
        (func : S → S) (s : S) (n0 : ℕ), 1 ≤ num_iterations → 1 ≤ num_loops →
        ∃ best s1 n1,
          timeit_out_run num_iterations num_loops false castK secK clk func s n0 =
            some (best, s1, n1,
              toString num_loops ++ " loops, best of " ++ toString num_iterations ++ ": "
                ++ fmtRat (best * secK * 1000000) ++ " usec per loop\n")) ∧
      timeit_out_run 3 2 false 1 1 mockClock (fun x : ℕ => x) 0 0 =
        some (3 / 2, 0, 12, "2 loops, best of 3: 1.5e+06 usec per loop\n") := by
  constructor
  · intro S num_iterations num_loops castK secK clk func s n0 hR hN
    obtain ⟨r0, h0, heq⟩ :=
      timeit_out_run_eq num_iterations num_loops false castK secK clk func s n0 hR
    have hcal : (timeit_out_cal num_loops false castK secK clk func s n0).1 = num_loops := by
      rw [timeit_out_cal, if_neg (by omega : ¬num_loops = 0)]
    have hout : (timeit_out_cal num_loops false castK secK clk func s n0).2.2.2 = "" := by
      rw [timeit_out_cal, if_neg (by omega : ¬num_loops = 0)]
    rw [hcal, hout] at heq
    refine ⟨r0 / ((num_loops : ℤ) : ℚ),
      (timeit_out_samples num_iterations num_loops false castK secK clk func s n0).2.1,
      (timeit_out_samples num_iterations num_loops false castK secK clk func s n0).2.2, ?_⟩
    rw [heq]
    simp only [Bool.false_eq_true, if_false, str_empty_append]
  · decide

/-- Witness for C8's general clause at `R = 3`, `N = 2` under the
deterministic test clock. -/
theorem timeit_out_summary_line_format_witness :
    ∃ best s1 n1,
      timeit_out_run 3 2 false 1 1 mockClock (fun x : ℕ => x) 0 0 =
        some (best, s1, n1,
          toString (2 : ℤ) ++ " loops, best of " ++ toString (3 : ℤ) ++ ": "
            ++ fmtRat (best * 1 * 1000000) ++ " usec per loop\n") :=
  timeit_out_summary_line_format.1 ℕ 3 2 1 1 mockClock (fun x : ℕ => x) 0 0
    (by decide) (by decide)

/-- Claim C4: with `loop_count = 0` the Comparator calibrates the two
subjects in turn and the shared loop count used for both measurements is
the larger of the two calibration results. -/
theorem compare_shared_count_eq_max_calibrations {S : Type} (num_iterations : ℤ)
    (verbose : Bool) (castK secK : ℚ) (clk : ℕ → ℚ) (func1 func2 : S → S) (s : S)
    (n0 : ℕ) (hR : 1 ≤ num_iterations) :
    (compare_cal 0 verbose castK secK clk func1 func2 s n0).1 =
        max (calibrate_number_of_loops verbose castK secK clk func1 s n0).1
          (calibrate_number_of_loops verbose castK secK clk func2
            (calibrate_number_of_loops verbose castK secK clk func1 s n0).2.1
            (calibrate_number_of_loops verbose castK secK clk func1 s n0).2.2.1).1 ∧
      ∃ ratio ratioX s1 n1 out,
        compare_run num_iterations 0 verbose castK secK clk func1 func2 s n0 =
          some (ratio, ratioX,
            max (calibrate_number_of_loops verbose castK secK clk func1 s n0).1
              (calibrate_number_of_loops verbose castK secK clk func2
                (calibrate_number_of_loops verbose castK secK clk func1 s n0).2.1
                (calibrate_number_of_loops verbose castK secK clk func1 s n0).2.2.1).1,
            s1, n1, out) := by
  have hcal : (compare_cal 0 verbose castK secK clk func1 func2 s n0).1 =
      max (calibrate_number_of_loops verbose castK secK clk func1 s n0).1
        (calibrate_number_of_loops verbose castK secK clk func2
          (calibrate_number_of_loops verbose castK secK clk func1 s n0).2.1
          (calibrate_number_of_loops verbose castK secK clk func1 s n0).2.2.1).1 := by
    rw [compare_cal, if_pos rfl]
  refine ⟨hcal, ?_⟩
  obtain ⟨b1, m1, b2, m2, _, _, _, _, out, heq⟩ :=
    compare_run_eq num_iterations 0 verbose castK secK clk func1 func2 s n0 hR
  rw [hcal] at heq
  exact ⟨_, _, _, _, out, heq⟩

/-- Witness for C4 at `R = 1` under the deterministic test clock. -/
theorem compare_shared_count_eq_max_calibrations_witness :
    (compare_cal 0 false 1 1 mockClock (fun x : ℕ => x) (fun x : ℕ => x) 0 0).1 =
        max (calibrate_number_of_loops false 1 1 mockClock (fun x : ℕ => x) 0 0).1
          (calibrate_number_of_loops false 1 1 mockClock (fun x : ℕ => x)
            (calibrate_number_of_loops false 1 1 mockClock (fun x : ℕ => x) 0 0).2.1
            (calibrate_number_of_loops false 1 1 mockClock (fun x : ℕ => x) 0 0).2.2.1).1 ∧
      ∃ ratio ratioX s1 n1 out,
        compare_run 1 0 false 1 1 mockClock (fun x : ℕ => x) (fun x : ℕ => x) 0 0 =
          some (ratio, ratioX,
            max (calibrate_number_of_loops false 1 1 mockClock (fun x : ℕ => x) 0 0).1
              (calibrate_number_of_loops false 1 1 mockClock (fun x : ℕ => x)
                (calibrate_number_of_loops false 1 1 mockClock (fun x : ℕ => x) 0 0).2.1
                (calibrate_number_of_loops false 1 1 mockClock (fun x : ℕ => x) 0 0).2.2.1).1,
            s1, n1, out) :=
  compare_shared_count_eq_max_calibrations 1 false 1 1 mockClock
    (fun x : ℕ => x) (fun x : ℕ => x) 0 0 (by decide)

/-- Claim C5: for every repeat count `R ≥ 1` the Comparator's median
ratio is taken from index `R / 2` (C++ integer-truncating division) of
each ascending-sorted sample set — for even `R` the upper-median
element, not an average of the two middle elements. -/
theorem compare_median_index_tdiv_two {S : Type} (num_iterations num_loops : ℤ)
    (verbose : Bool) (castK secK : ℚ) (clk : ℕ → ℚ) (func1 func2 : S → S) (s : S)
    (n0 : ℕ) (hR : 1 ≤ num_iterations) :
    ∃ ratio median1 median2 nn s1 n1 out,
      (List.insertionSort (fun a b => a ≤ b)
        (compare_rr1 num_iterations num_loops verbose castK secK clk func1 func2 s n0).1)[(num_iterations.tdiv 2).toNat]?
        = some median1 ∧
      (List.insertionSort (fun a b => a ≤ b)
        (compare_rr2 num_iterations num_loops verbose castK secK clk func1 func2 s n0).1)[(num_iterations.tdiv 2).toNat]?
        = some median2 ∧
      compare_run num_iterations num_loops verbose castK secK clk func1 func2 s n0 =
        some (ratio, median1 / median2, nn, s1, n1, out) := by
  obtain ⟨b1, m1, b2, m2, h1, h2, h3, h4, out, heq⟩ :=
    compare_run_eq num_iterations num_loops verbose castK secK clk func1 func2 s n0 hR
  exact ⟨_, m1, m2, _, _, _, out, h2, h4, heq⟩

/-- Witness for C5 at `R = 2`, `N = 1` under the deterministic test
clock. -/
theorem compare_median_index_tdiv_two_witness :
    ∃ ratio median1 median2 nn s1 n1 out,
      (List.insertionSort (fun a b => a ≤ b)
        (compare_rr1 2 1 false 1 1 mockClock (fun x : ℕ => x) (fun x : ℕ => x) 0 0).1)[((2 : ℤ).tdiv 2).toNat]?
        = some median1 ∧
      (List.insertionSort (fun a b => a ≤ b)
        (compare_rr2 2 1 false 1 1 mockClock (fun x : ℕ => x) (fun x : ℕ => x) 0 0).1)[((2 : ℤ).tdiv 2).toNat]?
        = some median2 ∧
      compare_run 2 1 false 1 1 mockClock (fun x : ℕ => x) (fun x : ℕ => x) 0 0 =
        some (ratio, median1 / median2, nn, s1, n1, out) :=
  compare_median_index_tdiv_two 2 1 false 1 1 mockClock
    (fun x : ℕ => x) (fun x : ℕ => x) 0 0 (by decide)

/-- Claim C6: for every pair of subjects and repeat count `R ≥ 1`, the
Comparator's returned value is the ratio of the two sample sets' minimum
batch totals, with neither minimum divided by the loop count. -/
theorem compare_returns_min_ratio {S : Type} (num_iterations num_loops : ℤ)
    (verbose : Bool) (castK secK : ℚ) (clk : ℕ → ℚ) (func1 func2 : S → S) (s : S)
    (n0 : ℕ) (hR : 1 ≤ num_iterations) :
    ∃ m1 m2 ratioX nn s1 n1 out,
      (compare_rr1 num_iterations num_loops verbose castK secK clk func1 func2 s n0).1.min?
        = some m1 ∧
      (compare_rr2 num_iterations num_loops verbose castK secK clk func1 func2 s n0).1.min?
        = some m2 ∧
      compare_run num_iterations num_loops verbose castK secK clk func1 func2 s n0 =
        some (m1 / m2, ratioX, nn, s1, n1, out) := by
  obtain ⟨b1, m1, b2, m2, h1, h2, h3, h4, out, heq⟩ :=
    compare_run_eq num_iterations num_loops verbose castK secK clk func1 func2 s n0 hR
  have hmin1 : (compare_rr1 num_iterations num_loops verbose castK secK clk func1 func2 s n0).1.min?
      = some b1 := by
    rw [← head?_insertionSort_min?, List.head?_eq_getElem?]
    exact h1
  have hmin2 : (compare_rr2 num_iterations num_loops verbose castK secK clk func1 func2 s n0).1.min?
      = some b2 := by
    rw [← head?_insertionSort_min?, List.head?_eq_getElem?]
    exact h3
  exact ⟨b1, b2, _, _, _, _, out, hmin1, hmin2, heq⟩

/-- Witness for C6 at `R = 2`, `N = 1` under the deterministic test
clock. -/
theorem compare_returns_min_ratio_witness :
    ∃ m1 m2 ratioX nn s1 n1 out,
      (compare_rr1 2 1 false 1 1 mockClock (fun x : ℕ => x) (fun x : ℕ => x) 0 0).1.min?
        = some m1 ∧
      (compare_rr2 2 1 false 1 1 mockClock (fun x : ℕ => x) (fun x : ℕ => x) 0 0).1.min?
        = some m2 ∧
      compare_run 2 1 false 1 1 mockClock (fun x : ℕ => x) (fun x : ℕ => x) 0 0 =
        some (m1 / m2, ratioX, nn, s1, n1, out) :=
  compare_returns_min_ratio 2 1 false 1 1 mockClock
    (fun x : ℕ => x) (fun x : ℕ => x) 0 0 (by decide)

/-- Claim C10: the Reporter indexes the sorted sample vector at 0 and
the Comparator at 0 and `R / 2` with no emptiness check, so `R ≥ 1` is
an unstated precondition of both entry points: under it every access is
in bounds, while for `R ≤ 0` the sample set is empty and the access is
out of bounds. -/
theorem sample_indexing_bounds :
    (∀ (S : Type) (num_iterations num_loops : ℤ) (verbose : Bool) (castK secK : ℚ)
        (clk : ℕ → ℚ) (func1 func2 : S → S) (s : S) (n0 : ℕ), 1 ≤ num_iterations →
        (∃ v, timeit_out_run num_iterations num_loops verbose castK secK clk func1 s n0 = some v) ∧
          ∃ w, compare_run num_iterations num_loops verbose castK secK clk func1 func2 s n0 = some w) ∧
      ∀ (S : Type) (num_iterations num_loops : ℤ) (verbose : Bool) (castK secK : ℚ)
        (clk : ℕ → ℚ) (func1 func2 : S → S) (s : S) (n0 : ℕ), num_iterations ≤ 0 →
        (timeit_out_samples num_iterations num_loops verbose castK secK clk func1 s n0).1 = [] ∧
          timeit_out_run num_iterations num_loops verbose castK secK clk func1 s n0 = none ∧
          (compare_rr1 num_iterations num_loops verbose castK secK clk func1 func2 s n0).1 = [] ∧
          compare_run num_iterations num_loops verbose castK secK clk func1 func2 s n0 = none := by
  constructor
  · intro S num_iterations num_loops verbose castK secK clk func1 func2 s n0 hR
    obtain ⟨r0, h0, heq⟩ :=
      timeit_out_run_eq num_iterations num_loops verbose castK secK clk func1 s n0 hR
    obtain ⟨b1, m1, b2, m2, h1, h2, h3, h4, out, heq2⟩ :=
      compare_run_eq num_iterations num_loops verbose castK secK clk func1 func2 s n0 hR
    exact ⟨⟨_, heq⟩, ⟨_, heq2⟩⟩
  · intro S num_iterations num_loops verbose castK secK clk func1 func2 s n0 hR
    have he1 : (timeit_out_samples num_iterations num_loops verbose castK secK clk func1 s n0).1 = [] := by
      rw [← List.length_eq_zero, timeit_out_samples, repeat_run_length]
      omega
    have he2 : (compare_rr1 num_iterations num_loops verbose castK secK clk func1 func2 s n0).1 = [] := by
      rw [← List.length_eq_zero, compare_rr1, repeat_run_length]
      omega
    have he3 : (compare_rr2 num_iterations num_loops verbose castK secK clk func1 func2 s n0).1 = [] := by
      rw [← List.length_eq_zero, compare_rr2, repeat_run_length]
      omega
    refine ⟨he1, ?_, he2, ?_⟩
    · simp only [timeit_out_run, he1]
      rfl
    · simp only [compare_run, he2, he3]
      rfl

/-- Witness for C10's positive clause at `R = 1`, `N = 1` under the
deterministic test clock. -/
theorem sample_indexing_bounds_witness :
    (∃ v, timeit_out_run 1 1 false 1 1 mockClock (fun x : ℕ => x) 0 0 = some v) ∧
      ∃ w, compare_run 1 1 false 1 1 mockClock (fun x : ℕ => x) (fun x : ℕ => x) 0 0 = some w :=
  sample_indexing_bounds.1 ℕ 1 1 false 1 1 mockClock (fun x : ℕ => x) (fun x : ℕ => x) 0 0
    (by decide)

end timeit
